import Mathlib

/-!
Shallow embedding of `deliciousapi.py` (DeliciousAPI 1.5.3) in Lean 4,
together with theorems settling the specification claims about it.

The network, the HTML soup parser and the JSON/XML decoders are abstracted
at their natural boundaries: every function below mirrors the control flow
of the corresponding Python function, with the data a call site receives
from the outside world (HTTP responses, parsed bookmark blocks, decoded
JSON values) passed in as explicit inputs.
-/

namespace DeliciousAPI

/-- Python exceptions that the embedded code can raise. -/
inductive PyError where
  | typeError
  | valueError
  | nameError
  | assertionError
  deriving DecidableEq, Repr

/-- The `Delicious*` exception classes raised by `_query`'s HTTP-status
classification, each carrying the message string built in the source. -/
inductive DeliciousException where
  | movedPermanentlyWarning (msg : String)
  | movedTemporarilyWarning (msg : String)
  | unauthorizedError (msg : String)
  | notFoundError (msg : String)
  | delicious500Error (msg : String)
  | throttleError (msg : String)
  | unknownError (msg : String)
  deriving DecidableEq, Repr

/-- What one `opener.open(url)` attempt produces, as seen by `_query`'s
`try` block: a successful read of the body (HTTP 200), an
`urllib2.HTTPError` with a status code, an `urllib2.URLError`, or a
`socket.error`. -/
inductive AttemptResult where
  | success (body : String)
  | httpError (code : Nat)
  | urlError
  | socketError
  deriving DecidableEq, Repr

/-- The status-code classification performed in `_query`'s
`except urllib2.HTTPError` branch (source lines 326-340), message strings
included. -/
def classifyHTTPError (code : Nat) : DeliciousException :=
  if code = 301 then
    .movedPermanentlyWarning ("delicious.com status " ++ toString code ++ " - url moved permanently")
  else if code = 302 then
    .movedTemporarilyWarning ("delicious.com status " ++ toString code ++ " - url moved temporarily")
  else if code = 401 then
    .unauthorizedError ("delicious.com error " ++ toString code ++ " - unauthorized (authentication failed?)")
  else if code = 404 then
    .notFoundError ("delicious.com error " ++ toString code ++ " - url not found")
  else if code = 500 then
    .delicious500Error ("delicious.com error " ++ toString code ++ " - server problem")
  else if code = 503 ∨ code = 999 then
    .throttleError ("delicious.com error " ++ toString code ++ " - unable to process request (your IP address has been throttled/blocked)")
  else
    .unknownError ("delicious.com error " ++ toString code ++ " - unknown error")

/-- Observable outcome of one `_query` call: the value returned or the
exception raised, plus how many requests were issued and how many seconds
were spent in `time.sleep`. -/
structure QueryTrace where
  result : Except DeliciousException (Option String)
  requests : Nat
  sleepTotal : Nat
  deriving Repr

/-- The `while tries > 0` loop of `_query` (source lines 321-350).
`net i` is what the i-th issued request produces.  A successful read
stores the body in `data` and — exactly as in the source, which has no
`break` after a successful read — falls through to `tries -= 1` and loops
again; an `HTTPError` is classified and raised; `URLError` and
`socket.error` sleep `wait` seconds and loop. -/
def queryLoop (net : Nat → AttemptResult) (wait : Nat) :
    Nat → Nat → Nat → Nat → Option String → QueryTrace
  | 0, _, reqs, slept, data => ⟨.ok data, reqs, slept⟩
  | tries + 1, i, reqs, slept, data =>
    match net i with
    | .success body => queryLoop net wait tries (i + 1) (reqs + 1) slept (some body)
    | .httpError code => ⟨.error (classifyHTTPError code), reqs + 1, slept⟩
    | .urlError => queryLoop net wait tries (i + 1) (reqs + 1) (slept + wait) data
    | .socketError => queryLoop net wait tries (i + 1) (reqs + 1) (slept + wait) data

/-- `DeliciousAPI._query`, with the network abstracted to `net` and the
configured `tries` and `wait_seconds` passed in (source lines 284-351). -/
def query (net : Nat → AttemptResult) (tries wait : Nat) : QueryTrace :=
  queryLoop net wait tries 0 0 0 none

/-- One fetched-and-parsed result page, as `get_bookmarks` sees it after
`_query` and the page extractor have run: the records extracted from the
page, and whether `div#pagination` advertises an `a.pn.next` link. -/
structure Page (α : Type) where
  records : List α
  hasNext : Bool
  deriving DecidableEq, Repr

/-- The `while path` loop of `get_bookmarks` (source lines 501-527).
`pages i` is what the i-th issued `_query` returns: `none` for a falsy
body (`if data:` fails), `some p` for a page that was extracted.  `i`
counts the requests issued so far and `acc` is the accumulated
`bookmarks` list.  A next page is requested only when a next link exists,
the cap is disabled or not yet reached, and the accumulated list is
nonempty — the guard `len(bookmarks) > 0` of the source is on the
cumulative list, not on the current page.  `fuel` bounds the number of
iterations (the source loop has no such bound). -/
def collectAux {α : Type} (pages : Nat → Option (Page α)) (maxB : Nat) :
    Nat → Nat → List α → List α × Nat
  | 0, i, acc => (acc, i)
  | fuel + 1, i, acc =>
    match pages i with
    | none => (acc, i + 1)
    | some p =>
      let acc2 := acc ++ p.records
      if p.hasNext ∧ (maxB = 0 ∨ acc2.length < maxB) ∧ 0 < acc2.length then
        collectAux pages maxB fuel (i + 1) acc2
      else
        (acc2, i + 1)

/-- `DeliciousAPI.get_bookmarks` (source lines 421-531), network and
extraction abstracted into `pages`.  Returns the bookmark list — truncated
to `max_bookmarks` when that cap is positive — together with the number of
requests issued. -/
def get_bookmarks {α : Type} (pages : Nat → Option (Page α))
    (max_bookmarks fuel : Nat) : List α × Nat :=
  let r := collectAux pages max_bookmarks fuel 0 []
  (if max_bookmarks > 0 then r.1.take max_bookmarks else r.1, r.2)

/-- A bookmark record extracted from a "who bookmarked this URL" page:
the `(user, tags, comment, timestamp)` tuple appended by
`_extract_bookmarks_from_url_history`.  The `strptime`-parsed creation
date is modelled by the raw date string; `none` is Python `None` (no date
marker seen yet). -/
structure UrlRec where
  user : String
  tags : List String
  comment : String
  timestamp : Option String
  deriving DecidableEq, Repr

/-- A bookmark record of `DeliciousUser`: the
`(url, tags, title, comment, timestamp)` tuple.  In the JSON-feed path of
`get_user`, `url` and `timestamp` are initialised to Python `None`, hence
the `Option`s. -/
structure UserRec where
  url : Option String
  tags : List String
  title : String
  comment : String
  timestamp : Option String
  deriving DecidableEq, Repr

/-- One `div.bookmark` block of a URL-history page, at the granularity
`_extract_bookmarks_from_url_history` inspects it: `dateGroup` is the
stripped text of the first span of the first `div.dateGroup` when that
chain exists, `description` the text of the first `div.description`
under the first `div.data`, `tagdisplay` the texts of the
`span.tag-chain-item-span` spans, and `userSpan` is `some s` when the
first `div.meta` holds an `a.user.user-tag` link, with `s = some name`
when that link holds a span carrying the user name. -/
structure UrlHistBlock where
  dateGroup : Option String
  description : Option String
  tagdisplay : List String
  userSpan : Option (Option String)
  deriving DecidableEq, Repr

/-- One `div.bookmark` block of a user-history page: `taggedlink` is
`some (title, href)` when the first `div.data` holds an `a.taggedlink`. -/
structure UserHistBlock where
  dateGroup : Option String
  taggedlink : Option (String × String)
  description : Option String
  tagdisplay : List String
  deriving DecidableEq, Repr

/-- The per-block timestamp update shared by both extractors: a block
carrying a date marker installs it, a block without one keeps the
previously carried value. -/
def carryDate (ts m : Option String) : Option String :=
  match m with
  | some d => some d
  | none => ts

/-- The date value in effect at each successive block when starting from
carried value `ts`. -/
def carryForward (ts : Option String) : List (Option String) → List (Option String)
  | [] => []
  | m :: ms => carryDate ts m :: carryForward (carryDate ts m) ms

/-- Loop body of `_extract_bookmarks_from_url_history` (source lines
533-581), threading the two Python variables that persist across blocks:
the carried `timestamp` and the (possibly still unbound) `user`.  A block
whose meta section holds a user link but no span reuses the previous
`user`; if no `user` was ever bound, the `bookmarks.append` line raises
`NameError`.  Blocks without a meta section or user link append no
record. -/
def extractUrlHistAux : Option String → Option String → List UrlHistBlock →
    Except PyError (List UrlRec)
  | _, _, [] => .ok []
  | user, ts, b :: bs =>
    let ts2 := carryDate ts b.dateGroup
    let comment := b.description.getD ""
    match b.userSpan with
    | none => extractUrlHistAux user ts2 bs
    | some sp =>
      let user2 := match sp with
        | some name => some name
        | none => user
      match user2 with
      | none => .error .nameError
      | some u =>
        match extractUrlHistAux user2 ts2 bs with
        | .ok rest => .ok (⟨u, b.tagdisplay, comment, ts2⟩ :: rest)
        | .error e => .error e

/-- `DeliciousAPI._extract_bookmarks_from_url_history`, the parsed
bookmark blocks passed in. -/
def extract_bookmarks_from_url_history (blocks : List UrlHistBlock) :
    Except PyError (List UrlRec) :=
  extractUrlHistAux none none blocks

/-- Loop body of `_extract_bookmarks_from_user_history` (source lines
583-628).  `title` and `url` are assigned only under the taggedlink test
and are never reset, so they persist across blocks; on the unconditional
`bookmarks.append` the interpreter raises `NameError`
(`UnboundLocalError`) when no block so far carried a taggedlink. -/
def extractUserHistAux : Option (String × String) → Option String →
    List UserHistBlock → Except PyError (List UserRec)
  | _, _, [] => .ok []
  | tl, ts, b :: bs =>
    let ts2 := carryDate ts b.dateGroup
    let tl2 := match b.taggedlink with
      | some p => some p
      | none => tl
    let comment := b.description.getD ""
    match tl2 with
    | none => .error .nameError
    | some tu =>
      match extractUserHistAux tl2 ts2 bs with
      | .ok rest => .ok (⟨some tu.2, b.tagdisplay, tu.1, comment, ts2⟩ :: rest)
      | .error e => .error e

/-- `DeliciousAPI._extract_bookmarks_from_user_history`; a page without a
`ul#bookmarklist` corresponds to the empty block list. -/
def extract_bookmarks_from_user_history (blocks : List UserHistBlock) :
    Except PyError (List UserRec) :=
  extractUserHistAux none none blocks

/-- A feed HTTP body as the decoding call sites see it: falsy (`None` or
the empty string, so `if data:` fails), non-empty but not valid JSON
(`simplejson.loads` raises `ValueError`), or valid JSON decoding to
`α`. -/
inductive Payload (α : Type) where
  | empty
  | invalid
  | valid (v : α)
  deriving DecidableEq, Repr

/-- `DeliciousAPI.get_tags_of_user` (source lines 740-759): the tag→count
map decoded from the tags JSON feed, the map modelled as an association
list in iteration order.  The surrounding `try` catches only `TypeError`,
so a `ValueError` raised by `simplejson.loads` on a non-JSON body
propagates to the caller. -/
def get_tags_of_user (data : Payload (List (String × Nat))) :
    Except PyError (List (String × Nat)) :=
  match data with
  | .empty => .ok []
  | .invalid => .error .valueError
  | .valid v => .ok v

/-- One post of the user JSON feed, with the optional keys `u` (url),
`d` (title), `t` (tags) and `dt` (timestamp, modelled as the raw
string). -/
structure JsonPost where
  u : Option String
  d : Option String
  t : Option (List String)
  dt : Option String
  deriving DecidableEq, Repr

/-- The `for post in posts` loop of the JSON-feed branch of `get_user`
(source lines 704-732).  `url`, `title`, `tags` and `timestamp` are
initialised once before the loop and each is overwritten only when the
corresponding key is present, so all four carry over from post to post;
`comment` is never assigned and stays the empty string.  The
`system:unfiled` sentinel is applied whenever `tags` is empty after the
`'t'` lookup. -/
def decodeUserPostsAux : Option String → String → List String → Option String →
    List JsonPost → List UserRec
  | _, _, _, _, [] => []
  | url, title, tags, ts, p :: ps =>
    let url2 := match p.u with
      | some v => some v
      | none => url
    let title2 := match p.d with
      | some v => v
      | none => title
    let tags1 := match p.t with
      | some v => v
      | none => tags
    let tags2 := if tags1 = [] then ["system:unfiled"] else tags1
    let ts2 := match p.dt with
      | some v => some v
      | none => ts
    ⟨url2, tags2, title2, "", ts2⟩ :: decodeUserPostsAux url2 title2 tags2 ts2 ps

/-- One `<post>` element of the authenticated XML feed, with its `href`,
`description`, `extended`, `tag` and `time` attributes. -/
structure XmlPost where
  href : String
  description : String
  extended : String
  tag : String
  time : String
  deriving DecidableEq, Repr

/-- Python `str.split()` with no argument: split on space runs, dropping
empty pieces (other whitespace does not occur in delicious tag
attributes). -/
def pySplit (s : String) : List String :=
  (s.splitOn " ").filter (fun piece => piece ≠ "")

/-- The per-`<post>` record construction of `get_user`'s authenticated
branch (source lines 679-687).  `element["description"] or u""` and
`element["extended"] or u""` are the identity on strings, and the
`strptime`-parsed timestamp is modelled by the raw `time` attribute. -/
def xmlPostToRec (p : XmlPost) : UserRec :=
  ⟨some p.href, if p.tag = "" then [] else pySplit p.tag, p.description,
    p.extended, some p.time⟩

/-- The `DeliciousUser` result object: username and the bookmark tuples. -/
structure DeliciousUser where
  username : String
  bookmarks : List UserRec
  deriving DecidableEq, Repr

/-- Python truthiness of the optional `password` argument. -/
def pyTruthy : Option String → Bool
  | none => false
  | some s => !(s == "")

/-- `DeliciousAPI.get_user` (source lines 631-737).  `authData` is the
parsed list of `<post>` elements of the authenticated XML feed (`none`
when `_query` returned a falsy body), `jsonData` the body of the user
JSON feed, and `pages`/`fuel` feed the `get_bookmarks` fallback (whose
records arrive already extracted; the `assert sleep_seconds >= 1` of
`get_bookmarks` is checked on entering that branch). -/
def get_user (username : String) (password : Option String)
    (max_bookmarks sleep_seconds : Nat) (authData : Option (List XmlPost))
    (jsonData : Payload (List JsonPost)) (pages : Nat → Option (Page UserRec))
    (fuel : Nat) : Except PyError DeliciousUser :=
  if username = "" then .error .assertionError
  else if pyTruthy password then
    let bookmarks := match authData with
      | some posts => posts.map xmlPostToRec
      | none => []
    .ok ⟨username, bookmarks⟩
  else if 0 < max_bookmarks ∧ max_bookmarks ≤ 100 then
    match jsonData with
    | .empty => .ok ⟨username, []⟩
    | .invalid => .error .valueError
    | .valid posts =>
        .ok ⟨username, (decodeUserPostsAux none "" [] none posts).take max_bookmarks⟩
  else if sleep_seconds < 1 then .error .assertionError
  else .ok ⟨username, (get_bookmarks pages max_bookmarks fuel).1⟩

/-- The decoded `urlinfo` JSON object of `get_url`, with its optional
`title`, `top_tags` (a tag→count map, modelled as an association list in
iteration order) and `total_posts` keys. -/
structure UrlInfo where
  title : Option String
  top_tags : Option (List (String × Nat))
  total_posts : Option Nat
  deriving DecidableEq, Repr

/-- The `DeliciousURL` result object (source lines 143-188), fields in
constructor order. -/
structure DeliciousURL where
  url : String
  top_tags : List (String × Nat)
  bookmarks : List UrlRec
  title : String
  total_bookmarks : Nat
  deriving DecidableEq, Repr

/-- One step of Python's stable `sorted(..., key=itemgetter(1),
reverse=True)`: `x` is placed before the first element whose count does
not exceed it, so pairs with equal counts keep their original relative
order. -/
def insertDescByCount (x : String × Nat) :
    List (String × Nat) → List (String × Nat)
  | [] => [x]
  | y :: ys => if y.2 ≤ x.2 then x :: y :: ys else y :: insertDescByCount x ys

/-- `sorted(top_tags.iteritems(), key=itemgetter(1), reverse=True)` of
`get_url` (source line 407): the stable descending-by-count sort of the
(tag, count) pairs. -/
def sortDescByCount (l : List (String × Nat)) : List (String × Nat) :=
  l.foldr insertDescByCount []

/-- The urlinfo-processing block of `get_url` (source lines 391-415),
applied to a fresh `DeliciousURL(url)`.  The `try` around
`simplejson.loads` catches only `TypeError`, so a non-JSON body raises
`ValueError`; a body decoding to the empty JSON list leaves `urlinfo` the
empty list and the subsequent `urlinfo['title']` subscription raises
`TypeError`.  Each document field is updated only when its key is
present; `document.bookmarks` is filled afterwards by `get_bookmarks`
and is not part of this block. -/
def get_url_decode (data : Payload (List UrlInfo)) (doc : DeliciousURL) :
    Except PyError DeliciousURL :=
  match data with
  | .empty => .ok doc
  | .invalid => .error .valueError
  | .valid [] => .error .typeError
  | .valid (info :: _) =>
    let doc1 := match info.title with
      | some t => { doc with title := t }
      | none => doc
    let doc2 := match info.top_tags with
      | some tt =>
          if tt ≠ [] then { doc1 with top_tags := sortDescByCount tt }
          else { doc1 with top_tags := [] }
      | none => doc1
    let doc3 := match info.total_posts with
      | some n => { doc2 with total_bookmarks := n }
      | none => doc2
    .ok doc3

end DeliciousAPI

open DeliciousAPI

/-- Concrete page stream: page 0 yields one record and has a next link,
page 1 yields zero records yet still has a next link, page 2 yields zero
records and has no next link. -/
def pagesC4 : Nat → Option (Page Nat) := fun i =>
  if i = 0 then some ⟨[7], true⟩
  else if i = 1 then some ⟨[], true⟩
  else some ⟨[], false⟩

/-- C1: every HTTP error status is classified exactly per the table:
301 → MovedPermanentlyWarning, 302 → MovedTemporarilyWarning,
401 → UnauthorizedError, 404 → NotFoundError, 500 → Delicious500Error,
503 and 999 → ThrottleError, any other code → UnknownError with the code
preserved in the message; an HTTPError received on the first attempt is
raised immediately by `query`, and a 200 response (with `tries = 1`)
yields its body as the successful result. -/
theorem c1_status_classification (code tries wait : Nat) (b : String)
    (netS netE : Nat → AttemptResult)
    (hS : netS 0 = AttemptResult.success b)
    (hE : netE 0 = AttemptResult.httpError code)
    (hu : code ≠ 301 ∧ code ≠ 302 ∧ code ≠ 401 ∧ code ≠ 404 ∧ code ≠ 500 ∧
          code ≠ 503 ∧ code ≠ 999) :
    classifyHTTPError 301 =
      .movedPermanentlyWarning "delicious.com status 301 - url moved permanently" ∧
    classifyHTTPError 302 =
      .movedTemporarilyWarning "delicious.com status 302 - url moved temporarily" ∧
    classifyHTTPError 401 =
      .unauthorizedError "delicious.com error 401 - unauthorized (authentication failed?)" ∧
    classifyHTTPError 404 =
      .notFoundError "delicious.com error 404 - url not found" ∧
    classifyHTTPError 500 =
      .delicious500Error "delicious.com error 500 - server problem" ∧
    classifyHTTPError 503 =
      .throttleError "delicious.com error 503 - unable to process request (your IP address has been throttled/blocked)" ∧
    classifyHTTPError 999 =
      .throttleError "delicious.com error 999 - unable to process request (your IP address has been throttled/blocked)" ∧
    classifyHTTPError code =
      .unknownError ("delicious.com error " ++ toString code ++ " - unknown error") ∧
    query netE (tries + 1) wait =
      ⟨.error (classifyHTTPError code), 1, 0⟩ ∧
    query netS 1 wait = ⟨.ok (some b), 1, 0⟩ := by
  obtain ⟨h1, h2, h3, h4, h5, h6, h7⟩ := hu
  refine ⟨by decide, by decide, by decide, by decide, by decide, by decide, by decide, ?_, ?_, ?_⟩
  · simp [classifyHTTPError, h1, h2, h3, h4, h5, h6, h7]
  · simp [query, queryLoop, hE]
  · simp [query, queryLoop, hS]

/-- C1 witness: instantiation at code 418 and a constant-success network. -/
theorem c1_status_classification_witness :
    classifyHTTPError 301 =
      .movedPermanentlyWarning "delicious.com status 301 - url moved permanently" ∧
    classifyHTTPError 302 =
      .movedTemporarilyWarning "delicious.com status 302 - url moved temporarily" ∧
    classifyHTTPError 401 =
      .unauthorizedError "delicious.com error 401 - unauthorized (authentication failed?)" ∧
    classifyHTTPError 404 =
      .notFoundError "delicious.com error 404 - url not found" ∧
    classifyHTTPError 500 =
      .delicious500Error "delicious.com error 500 - server problem" ∧
    classifyHTTPError 503 =
      .throttleError "delicious.com error 503 - unable to process request (your IP address has been throttled/blocked)" ∧
    classifyHTTPError 999 =
      .throttleError "delicious.com error 999 - unable to process request (your IP address has been throttled/blocked)" ∧
    classifyHTTPError 418 =
      .unknownError ("delicious.com error " ++ toString 418 ++ " - unknown error") ∧
    query (fun _ => AttemptResult.httpError 418) (2 + 1) 3 =
      ⟨.error (classifyHTTPError 418), 1, 0⟩ ∧
    query (fun _ => AttemptResult.success "page body") 1 3 =
      ⟨.ok (some "page body"), 1, 0⟩ :=
  c1_status_classification 418 2 3 "page body"
    (fun _ => AttemptResult.success "page body")
    (fun _ => AttemptResult.httpError 418)
    rfl rfl (by decide)

/-- C2 (code bug): with `tries = 3` and a server that answers 200 on every
attempt, `_query`'s loop has no `break` after a successful read, so the
request is issued three times, not once. -/
theorem c2_success_is_retried :
    query (fun _ => AttemptResult.success "body") 3 3 =
      ⟨.ok (some "body"), 3, 0⟩ ∧ (3 : Nat) ≠ 1 := by
  exact ⟨rfl, by decide⟩

/-- Helper: the `get_bookmarks` loop requests another page when a next
link exists, the cap is disabled or unreached, and the cumulative list is
nonempty. -/
theorem collectAux_continue {α : Type} {pages : Nat → Option (Page α)} {p : Page α}
    {maxB fuel i : Nat} {acc : List α}
    (hp : pages i = some p) (hnext : p.hasNext = true)
    (hcap : maxB = 0 ∨ (acc ++ p.records).length < maxB)
    (hpos : 0 < (acc ++ p.records).length) :
    collectAux pages maxB (fuel + 1) i acc =
      collectAux pages maxB fuel (i + 1) (acc ++ p.records) := by
  simp only [collectAux, hp]
  rw [if_pos ⟨hnext, hcap, hpos⟩]

/-- Helper: the loop stops after the current page when the guard fails. -/
theorem collectAux_stop {α : Type} {pages : Nat → Option (Page α)} {p : Page α}
    {maxB fuel i : Nat} {acc : List α}
    (hp : pages i = some p)
    (hguard : ¬(p.hasNext = true ∧ (maxB = 0 ∨ (acc ++ p.records).length < maxB) ∧
                0 < (acc ++ p.records).length)) :
    collectAux pages maxB (fuel + 1) i acc = (acc ++ p.records, i + 1) := by
  simp only [collectAux, hp]
  rw [if_neg hguard]

/-- C3: with a positive cap, the driver requests no further page once the
accumulated record count has reached the cap; the returned list has at
most cap records; and with cap 120 and three successive pages of 50
records each, every page advertising a next link, exactly 3 pages are
fetched and exactly 120 records are returned. -/
theorem c3_pagination_cap {α : Type} (pages : Nat → Option (Page α)) (p : Page α)
    (maxB fuel fuel2 fuel3 i : Nat) (acc : List α) (r : α)
    (hpos : 0 < maxB) (hp : pages i = some p)
    (hreach : maxB ≤ (acc ++ p.records).length)
    (hfuel : 3 ≤ fuel3) :
    collectAux pages maxB (fuel + 1) i acc = (acc ++ p.records, i + 1) ∧
    (get_bookmarks pages maxB fuel2).1.length ≤ maxB ∧
    get_bookmarks (fun _ => some ⟨List.replicate 50 r, true⟩) 120 fuel3 =
      (List.replicate 120 r, 3) := by
  refine ⟨?_, ?_, ?_⟩
  · refine collectAux_stop hp ?_
    rintro ⟨-, hc, -⟩
    rcases hc with h0 | hlt <;> omega
  · simp only [get_bookmarks, gt_iff_lt, hpos, if_pos, List.length_take]
    omega
  · obtain ⟨k, rfl⟩ : ∃ k, fuel3 = k + 3 := ⟨fuel3 - 3, by omega⟩
    have step1 :
        collectAux (fun _ => some (Page.mk (List.replicate 50 r) true)) 120 (k + 3) 0 [] =
          collectAux (fun _ => some (Page.mk (List.replicate 50 r) true)) 120 (k + 2) 1
            (List.replicate 50 r) := by
      have h := @collectAux_continue α (fun _ => some (Page.mk (List.replicate 50 r) true))
        (Page.mk (List.replicate 50 r) true) 120 (k + 2) 0 [] rfl rfl
        (by simp) (by simp)
      simpa using h
    have step2 :
        collectAux (fun _ => some (Page.mk (List.replicate 50 r) true)) 120 (k + 2) 1
            (List.replicate 50 r) =
          collectAux (fun _ => some (Page.mk (List.replicate 50 r) true)) 120 (k + 1) 2
            (List.replicate 100 r) := by
      have h := @collectAux_continue α (fun _ => some (Page.mk (List.replicate 50 r) true))
        (Page.mk (List.replicate 50 r) true) 120 (k + 1) 1 (List.replicate 50 r) rfl rfl
        (by simp) (by simp)
      rw [h]
      have : List.replicate 50 r ++ List.replicate 50 r = List.replicate 100 r := by
        rw [← List.replicate_add]
      rw [this]
    have step3 :
        collectAux (fun _ => some (Page.mk (List.replicate 50 r) true)) 120 (k + 1) 2
            (List.replicate 100 r) =
          (List.replicate 150 r, 3) := by
      have h := @collectAux_stop α (fun _ => some (Page.mk (List.replicate 50 r) true))
        (Page.mk (List.replicate 50 r) true) 120 k 2 (List.replicate 100 r) rfl
        (by
          rintro ⟨-, hc, -⟩
          simp only [List.length_append, List.length_replicate] at hc
          omega)
      rw [h]
      have : List.replicate 100 r ++ List.replicate 50 r = List.replicate 150 r := by
        rw [← List.replicate_add]
      rw [this]
    simp only [get_bookmarks, step1, step2, step3]
    norm_num [List.take_replicate]

/-- C4 counterexample: running the driver on `pagesC4` with cap 50, page 1
yields zero records yet advertises a next link, and the driver still
requests page 2 afterwards — three requests in total, where the claim
demands two. -/
theorem c4_counterexample :
    pagesC4 1 = some ⟨[], true⟩ ∧
    get_bookmarks pagesC4 50 10 = ([7], 3) ∧ (3 : Nat) ≠ 2 := by
  refine ⟨rfl, by decide, by decide⟩

/-- C4 amended: the emptiness guard of the driver is on the cumulative
record list, so a page yielding zero records halts pagination only when
the accumulated total is still zero; when earlier pages yielded records
and the cap is not reached, an empty page with a next link does not halt
pagination. -/
theorem c4_amended {α : Type} (pages : Nat → Option (Page α)) (p q : Page α)
    (maxB fuel i j : Nat) (acc acc2 : List α)
    (hp : pages i = some p) (hempty : acc ++ p.records = [])
    (hq : pages j = some q) (hqrec : q.records = []) (hqnext : q.hasNext = true)
    (hacc2 : acc2 ≠ []) (hcap : maxB = 0 ∨ acc2.length < maxB) :
    collectAux pages maxB (fuel + 1) i acc = ([], i + 1) ∧
    collectAux pages maxB (fuel + 1) j acc2 = collectAux pages maxB fuel (j + 1) acc2 := by
  constructor
  · have h := @collectAux_stop α pages p maxB fuel i acc hp (by
      rintro ⟨-, -, hlen⟩
      rw [hempty] at hlen
      simp at hlen)
    rw [h, hempty]
  · have h := @collectAux_continue α pages q maxB fuel j acc2 hq hqnext
      (by rw [hqrec, List.append_nil]; exact hcap)
      (by
        rw [hqrec, List.append_nil]
        exact List.length_pos.mpr hacc2)
    rw [h, hqrec, List.append_nil]

/-- C4 amended witness: on `pagesC4`, an empty page halts at position 2
with nothing accumulated, while the empty page at position 1 with one
record already accumulated leads to a further request. -/
theorem c4_amended_witness :
    collectAux pagesC4 50 (4 + 1) 2 ([] : List Nat) = ([], 3) ∧
    collectAux pagesC4 50 (4 + 1) 1 [7] = collectAux pagesC4 50 4 2 [7] :=
  @c4_amended Nat pagesC4 ⟨[], false⟩ ⟨[], true⟩ 50 4 2 1 [] [7]
    rfl rfl rfl rfl rfl (by decide) (Or.inr (by decide))

/-- Helper: on a URL-history page whose every block carries a user link
with a user span, extraction succeeds and the records' timestamps, tags
and comments are the blocks' markers carried forward, tag lists, and
descriptions defaulted to the empty string. -/
theorem extractUrlHistAux_fields (blocks : List UrlHistBlock) :
    ∀ user ts : Option String,
      (∀ b ∈ blocks, ∃ u, b.userSpan = some (some u)) →
      ∃ recs, extractUrlHistAux user ts blocks = .ok recs ∧
        recs.map UrlRec.timestamp = carryForward ts (blocks.map UrlHistBlock.dateGroup) ∧
        recs.map UrlRec.tags = blocks.map UrlHistBlock.tagdisplay ∧
        recs.map UrlRec.comment = blocks.map (fun b => b.description.getD "") := by
  induction blocks with
  | nil =>
    intro user ts _
    exact ⟨[], rfl, rfl, rfl, rfl⟩
  | cons b bs ih =>
    intro user ts h
    obtain ⟨u, hu⟩ := h b (List.mem_cons_self b bs)
    obtain ⟨rest, hok, hts, htags, hcomm⟩ :=
      ih (some u) (carryDate ts b.dateGroup) (fun x hx => h x (List.mem_cons_of_mem b hx))
    refine ⟨⟨u, b.tagdisplay, b.description.getD "", carryDate ts b.dateGroup⟩ :: rest,
      ?_, ?_, ?_, ?_⟩
    · simp only [extractUrlHistAux, hu, hok]
    · simp [carryForward, hts]
    · simp [htags]
    · simp [hcomm]

/-- Helper: on a user-history page whose every block carries a taggedlink,
extraction succeeds with the same carried-forward dates and defaulted
fields. -/
theorem extractUserHistAux_fields (blocks : List UserHistBlock) :
    ∀ (tl : Option (String × String)) (ts : Option String),
      (∀ b ∈ blocks, ∃ tu, b.taggedlink = some tu) →
      ∃ recs, extractUserHistAux tl ts blocks = .ok recs ∧
        recs.map UserRec.timestamp = carryForward ts (blocks.map UserHistBlock.dateGroup) ∧
        recs.map UserRec.tags = blocks.map UserHistBlock.tagdisplay ∧
        recs.map UserRec.comment = blocks.map (fun b => b.description.getD "") := by
  induction blocks with
  | nil =>
    intro tl ts _
    exact ⟨[], rfl, rfl, rfl, rfl⟩
  | cons b bs ih =>
    intro tl ts h
    obtain ⟨tu, hu⟩ := h b (List.mem_cons_self b bs)
    obtain ⟨rest, hok, hts, htags, hcomm⟩ :=
      ih (some tu) (carryDate ts b.dateGroup) (fun x hx => h x (List.mem_cons_of_mem b hx))
    refine ⟨⟨some tu.2, b.tagdisplay, tu.1, b.description.getD "", carryDate ts b.dateGroup⟩ :: rest,
      ?_, ?_, ?_, ?_⟩
    · simp only [extractUserHistAux, hu, hok]
    · simp [carryForward, hts]
    · simp [htags]
    · simp [hcomm]

/-- C5: in both HTML extractors every record is dated with the most
recently seen date marker at or before its block: when every block yields
a record, the timestamps are exactly the date markers carried forward
from block to block (starting unset), so a marker pattern
[D1, none, D2, none] gives record dates [D1, D1, D2, D2]. -/
theorem c5_date_carry_forward (blocks : List UrlHistBlock) (ublocks : List UserHistBlock)
    (h1 : ∀ b ∈ blocks, ∃ u, b.userSpan = some (some u))
    (h2 : ∀ b ∈ ublocks, ∃ tu, b.taggedlink = some tu) :
    (∃ recs, extract_bookmarks_from_url_history blocks = .ok recs ∧
        recs.map UrlRec.timestamp =
          carryForward none (blocks.map UrlHistBlock.dateGroup)) ∧
    (∃ recs, extract_bookmarks_from_user_history ublocks = .ok recs ∧
        recs.map UserRec.timestamp =
          carryForward none (ublocks.map UserHistBlock.dateGroup)) ∧
    ∀ d1 d2 : String,
      carryForward none [some d1, none, some d2, none] =
        [some d1, some d1, some d2, some d2] := by
  refine ⟨?_, ?_, fun d1 d2 => rfl⟩
  · obtain ⟨recs, hok, hts, -, -⟩ := extractUrlHistAux_fields blocks none none h1
    exact ⟨recs, hok, hts⟩
  · obtain ⟨recs, hok, hts, -, -⟩ := extractUserHistAux_fields ublocks none none h2
    exact ⟨recs, hok, hts⟩

/-- C5 witness: a four-block page with markers [D1, none, D2, none] on
each extractor yields records dated [D1, D1, D2, D2]. -/
theorem c5_date_carry_forward_witness :
    (∃ recs, extract_bookmarks_from_url_history
        [⟨some "01 Jan 08", some "c1", ["a"], some (some "u1")⟩,
         ⟨none, none, [], some (some "u2")⟩,
         ⟨some "02 Jan 08", none, ["b"], some (some "u3")⟩,
         ⟨none, some "c4", [], some (some "u4")⟩] = .ok recs ∧
        recs.map UrlRec.timestamp =
          carryForward none
            ([⟨some "01 Jan 08", some "c1", ["a"], some (some "u1")⟩,
              ⟨none, none, [], some (some "u2")⟩,
              ⟨some "02 Jan 08", none, ["b"], some (some "u3")⟩,
              (⟨none, some "c4", [], some (some "u4")⟩ : UrlHistBlock)].map
                UrlHistBlock.dateGroup)) ∧
    (∃ recs, extract_bookmarks_from_user_history
        [⟨some "01 Jan 08", some ("t1", "http://a"), none, ["a"]⟩,
         ⟨none, some ("t2", "http://b"), some "c2", []⟩,
         ⟨some "02 Jan 08", some ("t3", "http://c"), none, []⟩,
         ⟨none, some ("t4", "http://d"), none, ["b"]⟩] = .ok recs ∧
        recs.map UserRec.timestamp =
          carryForward none
            ([⟨some "01 Jan 08", some ("t1", "http://a"), none, ["a"]⟩,
              ⟨none, some ("t2", "http://b"), some "c2", []⟩,
              ⟨some "02 Jan 08", some ("t3", "http://c"), none, []⟩,
              (⟨none, some ("t4", "http://d"), none, ["b"]⟩ : UserHistBlock)].map
                UserHistBlock.dateGroup)) ∧
    ∀ d1 d2 : String,
      carryForward none [some d1, none, some d2, none] =
        [some d1, some d1, some d2, some d2] :=
  c5_date_carry_forward
    [⟨some "01 Jan 08", some "c1", ["a"], some (some "u1")⟩,
     ⟨none, none, [], some (some "u2")⟩,
     ⟨some "02 Jan 08", none, ["b"], some (some "u3")⟩,
     ⟨none, some "c4", [], some (some "u4")⟩]
    [⟨some "01 Jan 08", some ("t1", "http://a"), none, ["a"]⟩,
     ⟨none, some ("t2", "http://b"), some "c2", []⟩,
     ⟨some "02 Jan 08", some ("t3", "http://c"), none, []⟩,
     ⟨none, some ("t4", "http://d"), none, ["b"]⟩]
    (by
      intro b hb
      simp only [List.mem_cons, List.not_mem_nil, or_false] at hb
      rcases hb with rfl | rfl | rfl | rfl <;> exact ⟨_, rfl⟩)
    (by
      intro b hb
      simp only [List.mem_cons, List.not_mem_nil, or_false] at hb
      rcases hb with rfl | rfl | rfl | rfl <;> exact ⟨_, rfl⟩)

/-- C8 counterexample: a user-history page whose single bookmark block has
no title/URL link makes extraction abort with an `UnboundLocalError`
(modelled as `NameError`) instead of yielding a record with default
fields. -/
theorem c8_counterexample :
    extract_bookmarks_from_user_history [⟨none, none, none, []⟩] =
      .error PyError.nameError := rfl

/-- C8 amended: a missing date marker, description or tag list yields the
field's default (carried-forward date, empty string, empty list) and
never aborts; but a URL-history block without a user link yields no
record at all (it is skipped), and a user-history block without a
title/URL link reuses the previous block's title and URL — aborting the
whole page with a NameError when no earlier block carried one. -/
theorem c8_tolerance_amended (blocks : List UrlHistBlock) (ublocks : List UserHistBlock)
    (b : UrlHistBlock) (bs : List UrlHistBlock) (ub : UserHistBlock)
    (ubs : List UserHistBlock) (user ts : Option String) (t u : String)
    (h1 : ∀ x ∈ blocks, ∃ v, x.userSpan = some (some v))
    (h2 : ∀ x ∈ ublocks, ∃ tu, x.taggedlink = some tu)
    (hb : b.userSpan = none) (hub : ub.taggedlink = none) :
    (∃ recs, extract_bookmarks_from_url_history blocks = .ok recs ∧
        recs.map UrlRec.comment = blocks.map (fun x => x.description.getD "") ∧
        recs.map UrlRec.tags = blocks.map UrlHistBlock.tagdisplay ∧
        recs.map UrlRec.timestamp =
          carryForward none (blocks.map UrlHistBlock.dateGroup)) ∧
    (∃ recs, extract_bookmarks_from_user_history ublocks = .ok recs ∧
        recs.map UserRec.comment = ublocks.map (fun x => x.description.getD "") ∧
        recs.map UserRec.tags = ublocks.map UserHistBlock.tagdisplay ∧
        recs.map UserRec.timestamp =
          carryForward none (ublocks.map UserHistBlock.dateGroup)) ∧
    extractUrlHistAux user ts (b :: bs) =
      extractUrlHistAux user (carryDate ts b.dateGroup) bs ∧
    extractUserHistAux none ts (ub :: ubs) = .error PyError.nameError ∧
    extractUserHistAux (some (t, u)) ts (ub :: ubs) =
      (match extractUserHistAux (some (t, u)) (carryDate ts ub.dateGroup) ubs with
       | .ok rest =>
          .ok (⟨some u, ub.tagdisplay, t, ub.description.getD "",
                carryDate ts ub.dateGroup⟩ :: rest)
       | .error e => .error e) := by
  refine ⟨?_, ?_, ?_, ?_, ?_⟩
  · obtain ⟨recs, hok, hts, htags, hcomm⟩ := extractUrlHistAux_fields blocks none none h1
    exact ⟨recs, hok, hcomm, htags, hts⟩
  · obtain ⟨recs, hok, hts, htags, hcomm⟩ := extractUserHistAux_fields ublocks none none h2
    exact ⟨recs, hok, hcomm, htags, hts⟩
  · simp only [extractUrlHistAux, hb]
  · simp only [extractUserHistAux, hub]
  · simp only [extractUserHistAux, hub]

/-- C8 amended witness: concrete pages exercising every tolerated default
and both untolerated cases. -/
theorem c8_tolerance_amended_witness :
    (∃ recs, extract_bookmarks_from_url_history
        [⟨none, none, [], some (some "u1")⟩] = .ok recs ∧
        recs.map UrlRec.comment =
          [⟨none, none, [], some (some "u1")⟩].map
            (fun x : UrlHistBlock => x.description.getD "") ∧
        recs.map UrlRec.tags =
          [⟨none, none, [], some (some "u1")⟩].map UrlHistBlock.tagdisplay ∧
        recs.map UrlRec.timestamp =
          carryForward none
            ([(⟨none, none, [], some (some "u1")⟩ : UrlHistBlock)].map
              UrlHistBlock.dateGroup)) ∧
    (∃ recs, extract_bookmarks_from_user_history
        [⟨none, some ("t1", "http://a"), none, []⟩] = .ok recs ∧
        recs.map UserRec.comment =
          [⟨none, some ("t1", "http://a"), none, []⟩].map
            (fun x : UserHistBlock => x.description.getD "") ∧
        recs.map UserRec.tags =
          [⟨none, some ("t1", "http://a"), none, []⟩].map UserHistBlock.tagdisplay ∧
        recs.map UserRec.timestamp =
          carryForward none
            ([(⟨none, some ("t1", "http://a"), none, []⟩ : UserHistBlock)].map
              UserHistBlock.dateGroup)) ∧
    extractUrlHistAux none none
        ((⟨none, some "c", ["x"], none⟩ : UrlHistBlock) :: []) =
      extractUrlHistAux none
        (carryDate none (UrlHistBlock.dateGroup ⟨none, some "c", ["x"], none⟩)) [] ∧
    extractUserHistAux none none
        ((⟨none, none, some "c", ["x"]⟩ : UserHistBlock) :: []) =
      .error PyError.nameError ∧
    extractUserHistAux (some ("t0", "u0")) none
        ((⟨none, none, some "c", ["x"]⟩ : UserHistBlock) :: []) =
      (match extractUserHistAux (some ("t0", "u0"))
          (carryDate none (UserHistBlock.dateGroup ⟨none, none, some "c", ["x"]⟩)) [] with
       | .ok rest =>
          .ok (⟨some "u0", UserHistBlock.tagdisplay ⟨none, none, some "c", ["x"]⟩, "t0",
                (UserHistBlock.description ⟨none, none, some "c", ["x"]⟩).getD "",
                carryDate none (UserHistBlock.dateGroup ⟨none, none, some "c", ["x"]⟩)⟩ :: rest)
       | .error e => .error e) :=
  c8_tolerance_amended
    [⟨none, none, [], some (some "u1")⟩]
    [⟨none, some ("t1", "http://a"), none, []⟩]
    ⟨none, some "c", ["x"], none⟩ []
    ⟨none, none, some "c", ["x"]⟩ []
    none none "t0" "u0"
    (by
      intro x hx
      simp only [List.mem_cons, List.not_mem_nil, or_false] at hx
      subst hx
      exact ⟨_, rfl⟩)
    (by
      intro x hx
      simp only [List.mem_cons, List.not_mem_nil, or_false] at hx
      subst hx
      exact ⟨_, rfl⟩)
    rfl rfl

/-- C6 counterexample: in the JSON-feed branch of
`get_user("alice", no password, max 50)`, the first post is tagged
`["a"]` and the second post has no tag field; the decoded second record
keeps the carried-over tags `["a"]` instead of the claimed
`["system:unfiled"]`. -/
theorem c6_counterexample :
    get_user "alice" none 50 1 none
        (.valid [⟨none, none, some ["a"], none⟩, ⟨none, none, none, none⟩])
        (fun _ => none) 0 =
      .ok ⟨"alice",
        [⟨none, ["a"], "", "", none⟩, ⟨none, ["a"], "", "", none⟩]⟩ ∧
    (["a"] : List String) ≠ ["system:unfiled"] :=
  ⟨rfl, by decide⟩

/-- C6 amended: a user JSON-feed post whose tag field is present and
empty is assigned `["system:unfiled"]`; a post whose tag field is absent
inherits the previously decoded tag list (the loop variable carries
over), receiving `["system:unfiled"]` only when that inherited list is
empty — in particular the first post of a feed; HTML-scraped bookmarks
(URL-history and user-history pages alike) with no tags keep `[]`, and
authenticated XML-feed records with an empty tag attribute keep `[]`. -/
theorem c6_unfiled_amended (url : Option String) (title : String)
    (prev : List String) (ts : Option String) (p q r : JsonPost)
    (ps : List JsonPost) (blocks : List UrlHistBlock)
    (ublocks : List UserHistBlock) (xp : XmlPost)
    (hp : p.t = some []) (hq : q.t = none) (hprev : prev ≠ [])
    (hr : r.t = none)
    (hblocks : ∀ b ∈ blocks, ∃ u, b.userSpan = some (some u))
    (hublocks : ∀ b ∈ ublocks, ∃ tu, b.taggedlink = some tu)
    (hxp : xp.tag = "") :
    ((decodeUserPostsAux url title prev ts (p :: ps)).head?.map UserRec.tags =
        some ["system:unfiled"]) ∧
    ((decodeUserPostsAux url title prev ts (q :: ps)).head?.map UserRec.tags =
        some prev) ∧
    ((decodeUserPostsAux url title [] ts (r :: ps)).head?.map UserRec.tags =
        some ["system:unfiled"]) ∧
    (∃ recs, extract_bookmarks_from_url_history blocks = .ok recs ∧
        recs.map UrlRec.tags = blocks.map UrlHistBlock.tagdisplay) ∧
    (∃ recs, extract_bookmarks_from_user_history ublocks = .ok recs ∧
        recs.map UserRec.tags = ublocks.map UserHistBlock.tagdisplay) ∧
    (xmlPostToRec xp).tags = [] := by
  refine ⟨?_, ?_, ?_, ?_, ?_, ?_⟩
  · simp [decodeUserPostsAux, hp]
  · simp [decodeUserPostsAux, hq, hprev]
  · simp [decodeUserPostsAux, hr]
  · obtain ⟨recs, hok, -, htags, -⟩ := extractUrlHistAux_fields blocks none none hblocks
    exact ⟨recs, hok, htags⟩
  · obtain ⟨recs, hok, -, htags, -⟩ := extractUserHistAux_fields ublocks none none hublocks
    exact ⟨recs, hok, htags⟩
  · simp [xmlPostToRec, hxp]

/-- C6 amended witness: concrete posts exercising each tag-decoding case. -/
theorem c6_unfiled_amended_witness :
    ((decodeUserPostsAux none "" ["a"] none
        [(⟨none, none, some [], none⟩ : JsonPost)]).head?.map UserRec.tags =
      some ["system:unfiled"]) ∧
    ((decodeUserPostsAux none "" ["a"] none
        [(⟨none, none, none, none⟩ : JsonPost)]).head?.map UserRec.tags =
      some ["a"]) ∧
    ((decodeUserPostsAux none "" [] none
        [(⟨none, none, none, none⟩ : JsonPost)]).head?.map UserRec.tags =
      some ["system:unfiled"]) ∧
    (∃ recs, extract_bookmarks_from_url_history
        [⟨none, none, [], some (some "u1")⟩] = .ok recs ∧
        recs.map UrlRec.tags =
          [(⟨none, none, [], some (some "u1")⟩ : UrlHistBlock)].map
            UrlHistBlock.tagdisplay) ∧
    (∃ recs, extract_bookmarks_from_user_history
        [⟨none, some ("t1", "http://b"), none, []⟩] = .ok recs ∧
        recs.map UserRec.tags =
          [(⟨none, some ("t1", "http://b"), none, []⟩ : UserHistBlock)].map
            UserHistBlock.tagdisplay) ∧
    (xmlPostToRec ⟨"http://a", "T", "", "", "2008-01-01T00:00:00Z"⟩).tags = [] :=
  c6_unfiled_amended none "" ["a"] none
    ⟨none, none, some [], none⟩ ⟨none, none, none, none⟩ ⟨none, none, none, none⟩
    [] [⟨none, none, [], some (some "u1")⟩]
    [⟨none, some ("t1", "http://b"), none, []⟩]
    ⟨"http://a", "T", "", "", "2008-01-01T00:00:00Z"⟩
    rfl rfl (by decide) rfl
    (by
      intro b hb
      simp only [List.mem_cons, List.not_mem_nil, or_false] at hb
      subst hb
      exact ⟨_, rfl⟩)
    (by
      intro b hb
      simp only [List.mem_cons, List.not_mem_nil, or_false] at hb
      subst hb
      exact ⟨_, rfl⟩)
    rfl

/-- C7 (code bug): every feed-decoding site swallows an empty body and
yields the empty/default result, but the `try` blocks around
`simplejson.loads` catch only `TypeError`, so a non-empty non-JSON body
raises an uncaught `ValueError` to the caller at all three sites. -/
theorem c7_malformed_payload :
    get_tags_of_user .empty = .ok [] ∧
    get_tags_of_user .invalid = .error PyError.valueError ∧
    (∀ doc, get_url_decode .empty doc = .ok doc) ∧
    (∀ doc, get_url_decode .invalid doc = .error PyError.valueError) ∧
    get_user "alice" none 50 1 none .empty (fun _ => none) 0 =
      .ok ⟨"alice", []⟩ ∧
    get_user "alice" none 50 1 none .invalid (fun _ => none) 0 =
      .error PyError.valueError :=
  ⟨rfl, rfl, fun _ => rfl, fun _ => rfl, rfl, rfl⟩

/-- Helper: membership in the insertion step. -/
theorem mem_insertDescByCount {x z : String × Nat} {l : List (String × Nat)} :
    z ∈ insertDescByCount x l ↔ z = x ∨ z ∈ l := by
  induction l with
  | nil => simp [insertDescByCount]
  | cons y ys ih =>
    rw [insertDescByCount]
    by_cases hc : y.2 ≤ x.2
    · rw [if_pos hc]
      simp [List.mem_cons]
    · rw [if_neg hc]
      simp only [List.mem_cons, ih]
      tauto

/-- Helper: inserting into a descending-by-count list keeps it
descending. -/
theorem insertDescByCount_pairwise (x : String × Nat) (l : List (String × Nat))
    (h : l.Pairwise (fun a b => b.2 ≤ a.2)) :
    (insertDescByCount x l).Pairwise (fun a b => b.2 ≤ a.2) := by
  induction l with
  | nil => simp [insertDescByCount]
  | cons y ys ih =>
    rw [List.pairwise_cons] at h
    obtain ⟨hy, hys⟩ := h
    rw [insertDescByCount]
    by_cases hc : y.2 ≤ x.2
    · rw [if_pos hc]
      refine List.Pairwise.cons ?_ (List.Pairwise.cons hy hys)
      intro z hz
      rcases List.mem_cons.mp hz with rfl | hz
      · exact hc
      · exact le_trans (hy z hz) hc
    · rw [if_neg hc]
      refine List.Pairwise.cons ?_ (ih hys)
      intro z hz
      rcases mem_insertDescByCount.mp hz with rfl | hz
      · omega
      · exact hy z hz

/-- Helper: the stored top-tags sort is pairwise descending by count. -/
theorem sortDescByCount_pairwise (l : List (String × Nat)) :
    (sortDescByCount l).Pairwise (fun a b => b.2 ≤ a.2) := by
  induction l with
  | nil => exact List.Pairwise.nil
  | cons x xs ih => exact insertDescByCount_pairwise x _ ih

/-- Helper: the urlinfo block stores `sortDescByCount` of a nonempty
top-tags map. -/
theorem get_url_decode_top_tags (doc : DeliciousURL) (info : UrlInfo)
    (rest : List UrlInfo) (tt : List (String × Nat))
    (htt : info.top_tags = some tt) (hne : tt ≠ []) :
    ∃ d, get_url_decode (.valid (info :: rest)) doc = .ok d ∧
      d.top_tags = sortDescByCount tt := by
  obtain ⟨ti, tt0, tp⟩ := info
  have h2 : tt0 = some tt := htt
  subst h2
  cases ti <;> cases tp <;>
    · simp only [get_url_decode, if_pos hne]
      exact ⟨_, rfl, rfl⟩

/-- C9: `get_url` stores the feed's unordered tag→count map sorted
descending by count as `top_tags` (every pair with a strictly greater
count precedes every pair with a smaller one, since the stored list is
pairwise descending), the ordering is deterministic (identical inputs
give identical outputs), and on the map
{"web": 5, "tools": 12, "python": 12} both 12-count tags precede
"web". -/
theorem c9_top_tags_sorted (doc : DeliciousURL) (info : UrlInfo)
    (rest : List UrlInfo) (tt : List (String × Nat))
    (htt : info.top_tags = some tt) (hne : tt ≠ []) :
    (∃ d, get_url_decode (.valid (info :: rest)) doc = .ok d ∧
        d.top_tags = sortDescByCount tt) ∧
    (∀ l : List (String × Nat),
        (sortDescByCount l).Pairwise (fun a b => b.2 ≤ a.2)) ∧
    (∀ l1 l2 : List (String × Nat), l1 = l2 →
        sortDescByCount l1 = sortDescByCount l2) ∧
    sortDescByCount [("web", 5), ("tools", 12), ("python", 12)] =
      [("tools", 12), ("python", 12), ("web", 5)] := by
  refine ⟨get_url_decode_top_tags doc info rest tt htt hne,
    sortDescByCount_pairwise, fun l1 l2 h => by rw [h], by decide⟩

/-- C9 witness: the concrete three-tag map through the urlinfo block. -/
theorem c9_top_tags_sorted_witness :
    (∃ d, get_url_decode
        (.valid [⟨none, some [("web", 5), ("tools", 12), ("python", 12)], none⟩])
        ⟨"http://x", [], [], "", 0⟩ = .ok d ∧
        d.top_tags =
          sortDescByCount [("web", 5), ("tools", 12), ("python", 12)]) ∧
    (∀ l : List (String × Nat),
        (sortDescByCount l).Pairwise (fun a b => b.2 ≤ a.2)) ∧
    (∀ l1 l2 : List (String × Nat), l1 = l2 →
        sortDescByCount l1 = sortDescByCount l2) ∧
    sortDescByCount [("web", 5), ("tools", 12), ("python", 12)] =
      [("tools", 12), ("python", 12), ("web", 5)] :=
  c9_top_tags_sorted ⟨"http://x", [], [], "", 0⟩
    ⟨none, some [("web", 5), ("tools", 12), ("python", 12)], none⟩ [] _
    rfl (by decide)

/-- C10: with a truthy password, `get_user` takes the authenticated-feed
branch: the result contains every record parsed from the XML feed, in
feed order, untruncated, and neither `max_bookmarks` nor `sleep_seconds`
(nor the JSON-feed or scraping inputs) affect the result. -/
theorem c10_auth_path (username : String) (password : Option String)
    (maxB maxB2 s s2 fuel fuel2 : Nat) (authData : Option (List XmlPost))
    (posts : List XmlPost) (jsonData jsonData2 : Payload (List JsonPost))
    (pages pages2 : Nat → Option (Page UserRec))
    (hU : username ≠ "") (hP : pyTruthy password = true) :
    get_user username password maxB s authData jsonData pages fuel =
      get_user username password maxB2 s2 authData jsonData2 pages2 fuel2 ∧
    get_user username password maxB s (some posts) jsonData pages fuel =
      .ok ⟨username, posts.map xmlPostToRec⟩ := by
  constructor <;> simp [get_user, hU, hP]

/-- C10 witness: a concrete authenticated call with two posts. -/
theorem c10_auth_path_witness :
    get_user "alice" (some "secret") 1 1
        (some [⟨"http://a", "TA", "na", "x y", "2008-01-01T10:00:00Z"⟩,
               ⟨"http://b", "TB", "", "", "2008-01-02T11:00:00Z"⟩])
        .empty (fun _ => none) 0 =
      get_user "alice" (some "secret") 99 7
        (some [⟨"http://a", "TA", "na", "x y", "2008-01-01T10:00:00Z"⟩,
               ⟨"http://b", "TB", "", "", "2008-01-02T11:00:00Z"⟩])
        .invalid (fun _ => none) 3 ∧
    get_user "alice" (some "secret") 1 1
        (some [⟨"http://a", "TA", "na", "x y", "2008-01-01T10:00:00Z"⟩,
               ⟨"http://b", "TB", "", "", "2008-01-02T11:00:00Z"⟩])
        .empty (fun _ => none) 0 =
      .ok ⟨"alice",
        [⟨"http://a", "TA", "na", "x y", "2008-01-01T10:00:00Z"⟩,
         ⟨"http://b", "TB", "", "", "2008-01-02T11:00:00Z"⟩].map xmlPostToRec⟩ :=
  c10_auth_path "alice" (some "secret") 1 99 1 7 0 3
    (some [⟨"http://a", "TA", "na", "x y", "2008-01-01T10:00:00Z"⟩,
           ⟨"http://b", "TB", "", "", "2008-01-02T11:00:00Z"⟩])
    [⟨"http://a", "TA", "na", "x y", "2008-01-01T10:00:00Z"⟩,
     ⟨"http://b", "TB", "", "", "2008-01-02T11:00:00Z"⟩]
    .empty .invalid (fun _ => none) (fun _ => none)
    (by decide) rfl

/-- C3 witness: concrete instantiation — a mid-run stop once 150 ≥ 120
records are accumulated, the length bound, and the 120-cap three-page
scenario on constant 50-record pages. -/
theorem c3_pagination_cap_witness :
    collectAux (fun _ => some ⟨List.replicate 50 0, true⟩) 120 (0 + 1) 2
        (List.replicate 100 0) =
      (List.replicate 100 0 ++ List.replicate 50 0, 2 + 1) ∧
    (get_bookmarks (fun _ => some ⟨List.replicate 50 0, true⟩) 120 5).1.length ≤ 120 ∧
    get_bookmarks (fun _ => some ⟨List.replicate 50 (0 : Nat), true⟩) 120 3 =
      (List.replicate 120 0, 3) :=
  c3_pagination_cap (fun _ => some ⟨List.replicate 50 0, true⟩)
    ⟨List.replicate 50 0, true⟩ 120 0 5 3 2 (List.replicate 100 0) 0
    (by decide) rfl (by simp) (by decide)
